import Mathlib

/-!
Verification of the calibration-transform and point-registry core of the
cross-section digitizer (src/map_tools.py and src/image_viewer_widget.py).

Python dictionaries are modelled as association lists preserving insertion
order; updating an existing key replaces its value in place, a new key is
appended.  Reference values are modelled by `RVal`, which distinguishes the
2-D pair stored for the origin from the scalar stored for an axis reference;
Python truthiness of these values (used by `set_reference_point`) and the
exceptions raised by tuple-unpacking a scalar are modelled explicitly
(`Except.error` plays the role of a raised exception).
-/

namespace CSD

/-- Python dict with `String` keys, as an insertion-ordered association list. -/
abbrev Dict (α : Type) := List (String × α)

/-- `m[key]` lookup: first (unique, for dicts) binding of `key`. -/
def dget {α : Type} : Dict α → String → Option α
  | [], _ => none
  | (k, v) :: rest, key => if k = key then some v else dget rest key

/-- `m[key] = v`: replace in place when the key exists, append otherwise. -/
def dset {α : Type} : Dict α → String → α → Dict α
  | [], key, v => [(key, v)]
  | (k, w) :: rest, key, v =>
      if k = key then (key, v) :: rest else (k, w) :: dset rest key v

/-- `key in m`. -/
def dmem {α : Type} (m : Dict α) (key : String) : Bool :=
  m.any (fun p => p.1 == key)

/-- `del m[key]`: drop the binding of `key`, keep everything else in order. -/
def ddel {α : Type} : Dict α → String → Dict α
  | [], _ => []
  | (k, v) :: rest, key => if k = key then ddel rest key else (k, v) :: ddel rest key

/-- A reference value as stored by the Python code: the origin gets a 2-D
real-world coordinate (a tuple), an axis reference gets a single number. -/
inductive RVal where
  | pair (x y : ℚ)
  | scalar (v : ℚ)
deriving DecidableEq, Repr

/-- Python truthiness of a stored value: a (nonempty) tuple is always truthy,
a number is truthy exactly when nonzero. -/
def RVal.truthy : RVal → Bool
  | pair _ _ => true
  | scalar v => decide (v ≠ 0)

/-- Python tuple unpacking `x, y = v`: raises `TypeError` on a number. -/
def RVal.unpackPair : RVal → Except Unit (ℚ × ℚ)
  | pair x y => Except.ok (x, y)
  | scalar _ => Except.error ()

/-- Using a stored value in arithmetic: raises `TypeError` on a tuple. -/
def RVal.asNumber : RVal → Except Unit ℚ
  | scalar v => Except.ok v
  | pair _ _ => Except.error ()

instance {ε α : Type} [DecidableEq ε] [DecidableEq α] : DecidableEq (Except ε α) :=
  fun x y =>
    match x, y with
    | Except.ok a, Except.ok b =>
        if h : a = b then isTrue (by rw [h]) else isFalse (by intro hc; cases hc; exact h rfl)
    | Except.ok _, Except.error _ => isFalse (by intro hc; cases hc)
    | Except.error _, Except.ok _ => isFalse (by intro hc; cases hc)
    | Except.error a, Except.error b =>
        if h : a = b then isTrue (by rw [h]) else isFalse (by intro hc; cases hc; exact h rfl)

/-- State of `CoordinateTransform` (src/map_tools.py): pixel locations and
real-world values of the reference points, keyed by role string. -/
structure CoordinateTransform where
  reference_points : Dict (ℚ × ℚ)
  reference_values : Dict RVal
deriving DecidableEq, Repr

namespace CoordinateTransform

/-- `__init__`: both dicts start empty. -/
def init : CoordinateTransform := ⟨[], []⟩

/-- `set_reference_point(point_type, pixel_coords, real_coords=None)`: always
records the pixel location; records the value only when `real_coords` is
truthy (`if real_coords:` in the source — `None` and a zero number are falsy). -/
def set_reference_point (t : CoordinateTransform) (point_type : String)
    (pixel_coords : ℚ × ℚ) (real_coords : Option RVal) : CoordinateTransform :=
  let t1 : CoordinateTransform :=
    { t with reference_points := dset t.reference_points point_type pixel_coords }
  match real_coords with
  | some rv =>
      if rv.truthy then
        { t1 with reference_values := dset t1.reference_values point_type rv }
      else t1
  | none => t1

/-- `set_reference_value(point_type, value)`: unconditional store, with no
validation of the role string or of the shape of the value. -/
def set_reference_value (t : CoordinateTransform) (point_type : String)
    (value : RVal) : CoordinateTransform :=
  { t with reference_values := dset t.reference_values point_type value }

/-- `is_calibrated()`: all three roles present in both dicts. -/
def is_calibrated (t : CoordinateTransform) : Bool :=
  (["origin", "x_ref", "y_ref"].all fun pt => dmem t.reference_points pt) &&
  (["origin", "x_ref", "y_ref"].all fun val => dmem t.reference_values val)

/-- `clear()`: empties both dicts. -/
def clear (_t : CoordinateTransform) : CoordinateTransform := ⟨[], []⟩

/-- `pixel_to_real(pixel_x, pixel_y)`.  `Except.ok none` is Python `None`,
`Except.ok (some (x, y))` is a returned pair, `Except.error ()` is a raised
exception (tuple unpacking of a scalar, arithmetic on a tuple, or a missing
key).  Scale factors fall back to `1` when the pixel denominator is zero;
the guarded division (and hence the value's use in arithmetic) is only
evaluated when the denominator is nonzero. -/
def pixel_to_real (t : CoordinateTransform) (pixel_x pixel_y : ℚ) :
    Except Unit (Option (ℚ × ℚ)) :=
  if !t.is_calibrated then Except.ok none
  else
    match dget t.reference_points "origin", dget t.reference_points "x_ref",
          dget t.reference_points "y_ref", dget t.reference_values "origin",
          dget t.reference_values "x_ref", dget t.reference_values "y_ref" with
    | some op, some xp, some yp, some ov, some xv, some yv =>
      match ov.unpackPair with
      | Except.error e => Except.error e
      | Except.ok (origin_x, origin_y) =>
        let origin_px := op.1
        let origin_py := op.2
        let x_ref_px := xp.1
        let y_ref_py := yp.2
        let xscaleE : Except Unit ℚ :=
          if x_ref_px ≠ origin_px then
            (xv.asNumber).map fun v => (v - origin_x) / (x_ref_px - origin_px)
          else Except.ok 1
        match xscaleE with
        | Except.error e => Except.error e
        | Except.ok x_scale =>
          let yscaleE : Except Unit ℚ :=
            if y_ref_py ≠ origin_py then
              (yv.asNumber).map fun v => (v - origin_y) / (y_ref_py - origin_py)
            else Except.ok 1
          match yscaleE with
          | Except.error e => Except.error e
          | Except.ok y_scale =>
            Except.ok (some (origin_x + (pixel_x - origin_px) * x_scale,
                             origin_y + (pixel_y - origin_py) * y_scale))
    | _, _, _, _, _, _ => Except.error ()

end CoordinateTransform

/-- The calibration used by the spec's examples: origin pixel `(0,0)` with
real value `(0,0)`, x-reference pixel `(100,0)` with value `10`,
y-reference pixel `(0,50)` with value `5`. -/
def specCalib : CoordinateTransform :=
  CoordinateTransform.init.set_reference_point "origin" (0, 0)
      (some (RVal.pair 0 0))
    |>.set_reference_point "x_ref" (100, 0) (some (RVal.scalar 10))
    |>.set_reference_point "y_ref" (0, 50) (some (RVal.scalar 5))

theorem dget_dset_self {α : Type} (m : Dict α) (k : String) (v : α) :
    dget (dset m k v) k = some v := by
  induction m with
  | nil => simp [dget, dset]
  | cons p rest ih =>
      by_cases h : p.1 = k
      · simp [dget, dset, h]
      · simp [dget, dset, h, ih]

theorem dget_dset_ne {α : Type} (m : Dict α) {k k2 : String} (v : α)
    (hne : k ≠ k2) : dget (dset m k v) k2 = dget m k2 := by
  induction m with
  | nil => simp [dget, dset, hne]
  | cons p rest ih =>
      by_cases h : p.1 = k
      · simp [dget, dset, h, hne]
      · simp only [dset, h, if_false]
        by_cases h2 : p.1 = k2
        · simp [dget, h2]
        · simp [dget, h2, ih]

theorem dmem_eq_isSome {α : Type} (m : Dict α) (k : String) :
    dmem m k = (dget m k).isSome := by
  induction m with
  | nil => simp [dmem, dget]
  | cons p rest ih =>
      by_cases h : p.1 = k
      · simp [dmem, dget, h]
      · simp [dmem, dget, h, ← ih]

theorem dget_ddel_self {α : Type} (m : Dict α) (k : String) :
    dget (ddel m k) k = none := by
  induction m with
  | nil => simp [ddel, dget]
  | cons p rest ih =>
      obtain ⟨pk, pv⟩ := p
      by_cases h : pk = k
      · simpa [ddel, h] using ih
      · simpa [ddel, dget, h] using ih

theorem dget_ddel_ne {α : Type} (m : Dict α) {k k2 : String} (hne : k ≠ k2) :
    dget (ddel m k) k2 = dget m k2 := by
  induction m with
  | nil => simp [ddel, dget]
  | cons p rest ih =>
      obtain ⟨pk, pv⟩ := p
      by_cases h : pk = k
      · subst h
        simpa [ddel, dget, hne] using ih
      · by_cases h2 : pk = k2
        · subst h2
          simp [ddel, dget, h]
        · simpa [ddel, dget, h, h2] using ih

namespace CoordinateTransform

theorem is_calibrated_iff (t : CoordinateTransform) :
    t.is_calibrated = true ↔
      ((dget t.reference_points "origin").isSome ∧
       (dget t.reference_points "x_ref").isSome ∧
       (dget t.reference_points "y_ref").isSome) ∧
      ((dget t.reference_values "origin").isSome ∧
       (dget t.reference_values "x_ref").isSome ∧
       (dget t.reference_values "y_ref").isSome) := by
  simp [is_calibrated, dmem_eq_isSome, and_assoc]

theorem pixel_to_real_of_not_calibrated (t : CoordinateTransform)
    (px py : ℚ) (h : t.is_calibrated = false) :
    t.pixel_to_real px py = Except.ok none := by
  simp [pixel_to_real, h]

theorem pixel_to_real_ne_none_of_calibrated (t : CoordinateTransform)
    (px py : ℚ) (h : t.is_calibrated = true) :
    t.pixel_to_real px py ≠ Except.ok none := by
  obtain ⟨⟨h1, h2, h3⟩, h4, h5, h6⟩ := (is_calibrated_iff t).1 h
  obtain ⟨op, hop⟩ := Option.isSome_iff_exists.1 h1
  obtain ⟨xp, hxp⟩ := Option.isSome_iff_exists.1 h2
  obtain ⟨yp, hyp⟩ := Option.isSome_iff_exists.1 h3
  obtain ⟨ov, hov⟩ := Option.isSome_iff_exists.1 h4
  obtain ⟨xv, hxv⟩ := Option.isSome_iff_exists.1 h5
  obtain ⟨yv, hyv⟩ := Option.isSome_iff_exists.1 h6
  simp only [pixel_to_real, h, Bool.not_true, Bool.false_eq_true, if_false,
    hop, hxp, hyp, hov, hxv, hyv]
  cases ov with
  | scalar v => simp [RVal.unpackPair]
  | pair x y =>
      simp only [RVal.unpackPair]
      repeat' split
      all_goals simp [Except.map, RVal.asNumber]

theorem pixel_to_real_eq (t : CoordinateTransform)
    (px py opx opy xpx xpy ypx ypy ox oy xv yv : ℚ)
    (hop : dget t.reference_points "origin" = some (opx, opy))
    (hxp : dget t.reference_points "x_ref" = some (xpx, xpy))
    (hyp : dget t.reference_points "y_ref" = some (ypx, ypy))
    (hov : dget t.reference_values "origin" = some (RVal.pair ox oy))
    (hxv : dget t.reference_values "x_ref" = some (RVal.scalar xv))
    (hyv : dget t.reference_values "y_ref" = some (RVal.scalar yv)) :
    t.pixel_to_real px py = Except.ok (some
      (ox + (px - opx) * (if xpx ≠ opx then (xv - ox) / (xpx - opx) else 1),
       oy + (py - opy) * (if ypy ≠ opy then (yv - oy) / (ypy - opy) else 1))) := by
  have hcal : t.is_calibrated = true := by
    rw [is_calibrated_iff]
    simp [hop, hxp, hyp, hov, hxv, hyv]
  by_cases hdx : xpx ≠ opx <;> by_cases hdy : ypy ≠ opy <;>
    simp [pixel_to_real, hcal, hop, hxp, hyp, hov, hxv, hyv,
      RVal.unpackPair, RVal.asNumber, Except.map, hdx, hdy]

end CoordinateTransform

/-- Claim C1: for a calibrated transform (with a 2-D origin value and scalar
axis values), `pixel_to_real(px, py)` returns
`(origin_x + (px - origin_px) * scale_x, origin_y + (py - origin_py) * scale_y)`
with `scale_x = (x_ref_value - origin_x) / (x_ref_pixel_x - origin_pixel_x)`
when that denominator is nonzero, `scale_y` computed symmetrically from the
y components; in particular, after calibrating with origin pixel `(0,0)` →
real `(0,0)`, x-ref pixel `(100,0)` → value `10`, y-ref pixel `(0,50)` →
value `5`: `pixel_to_real` maps `(0,0) ↦ (0,0)`, `(100,0) ↦ (10,0)`,
`(0,50) ↦ (0,5)`, `(50,0) ↦ (5,0)` and `(200,0) ↦ (20,0)`. -/
theorem c1_pixel_to_real_linear :
    (∀ (t : CoordinateTransform) (px py opx opy xpx xpy ypx ypy ox oy xv yv : ℚ),
      dget t.reference_points "origin" = some (opx, opy) →
      dget t.reference_points "x_ref" = some (xpx, xpy) →
      dget t.reference_points "y_ref" = some (ypx, ypy) →
      dget t.reference_values "origin" = some (RVal.pair ox oy) →
      dget t.reference_values "x_ref" = some (RVal.scalar xv) →
      dget t.reference_values "y_ref" = some (RVal.scalar yv) →
      xpx ≠ opx → ypy ≠ opy →
      t.pixel_to_real px py = Except.ok (some
        (ox + (px - opx) * ((xv - ox) / (xpx - opx)),
         oy + (py - opy) * ((yv - oy) / (ypy - opy))))) ∧
    specCalib.pixel_to_real 0 0 = Except.ok (some (0, 0)) ∧
    specCalib.pixel_to_real 100 0 = Except.ok (some (10, 0)) ∧
    specCalib.pixel_to_real 0 50 = Except.ok (some (0, 5)) ∧
    specCalib.pixel_to_real 50 0 = Except.ok (some (5, 0)) ∧
    specCalib.pixel_to_real 200 0 = Except.ok (some (20, 0)) := by
  constructor
  · intro t px py opx opy xpx xpy ypx ypy ox oy xv yv hop hxp hyp hov hxv hyv hdx hdy
    rw [CoordinateTransform.pixel_to_real_eq t px py opx opy xpx xpy ypx ypy ox oy xv yv
      hop hxp hyp hov hxv hyv, if_pos hdx, if_pos hdy]
  · refine ⟨?_, ?_, ?_, ?_, ?_⟩ <;>
      · simp [specCalib, CoordinateTransform.init, CoordinateTransform.set_reference_point,
          CoordinateTransform.pixel_to_real, CoordinateTransform.is_calibrated,
          dget, dset, dmem, RVal.truthy, RVal.unpackPair, RVal.asNumber, Except.map]
        try norm_num

/-- Claim C2: `is_calibrated()` is true exactly when both dicts contain all
three roles, and `pixel_to_real` returns `None` exactly when the transform is
not calibrated; uncalibrated use is the defined unavailable result, never an
exception and never a numeric pair. -/
theorem c2_uncalibrated_returns_none :
    ∀ (t : CoordinateTransform) (px py : ℚ),
      (t.is_calibrated = true ↔
        (dmem t.reference_points "origin" = true ∧
         dmem t.reference_points "x_ref" = true ∧
         dmem t.reference_points "y_ref" = true) ∧
        (dmem t.reference_values "origin" = true ∧
         dmem t.reference_values "x_ref" = true ∧
         dmem t.reference_values "y_ref" = true)) ∧
      (t.pixel_to_real px py = Except.ok none ↔ t.is_calibrated = false) := by
  intro t px py
  refine ⟨by simp [CoordinateTransform.is_calibrated, and_assoc], ?_, ?_⟩
  · intro hnone
    cases hcb : t.is_calibrated with
    | false => rfl
    | true => exact absurd hnone (t.pixel_to_real_ne_none_of_calibrated px py hcb)
  · exact t.pixel_to_real_of_not_calibrated px py

/-- Claim C3 counterexample: `set_reference_point` is called with the real
value `0` (supplied, not `None`) for role `x_ref`, yet no reference value is
recorded for that role — the source guards the store with Python truthiness
(`if real_coords:`), and the number `0` is falsy. -/
theorem c3_counterexample :
    some (RVal.scalar 0) ≠ (none : Option RVal) ∧
    dget ((CoordinateTransform.init.set_reference_point "x_ref" (1, 2)
      (some (RVal.scalar 0))).reference_values) "x_ref" = none := by
  constructor
  · simp
  · rfl

/-- Claim C3 (amended): `set_reference_point(role, pixel, real)` always
records `pixel` as the pixel location for `role` (overwriting any prior one);
it records `real` as the reference value for `role` when `real` is supplied
and truthy (a pair always is; a scalar is truthy iff nonzero), and leaves the
stored reference values unchanged when `real` is `None` or falsy. -/
theorem c3_set_reference_point_records :
    ∀ (t : CoordinateTransform) (role : String) (pixel : ℚ × ℚ)
      (real : Option RVal),
      dget (t.set_reference_point role pixel real).reference_points role =
        some pixel ∧
      (∀ rv, real = some rv → rv.truthy = true →
        dget (t.set_reference_point role pixel real).reference_values role =
          some rv) ∧
      ((real = none ∨ ∃ rv, real = some rv ∧ rv.truthy = false) →
        (t.set_reference_point role pixel real).reference_values =
          t.reference_values) := by
  intro t role pixel real
  refine ⟨?_, ?_, ?_⟩
  · cases real with
    | none => simp [CoordinateTransform.set_reference_point, dget_dset_self]
    | some rv =>
        by_cases h : rv.truthy <;>
          simp [CoordinateTransform.set_reference_point, h, dget_dset_self]
  · intro rv hrv ht
    subst hrv
    simp [CoordinateTransform.set_reference_point, ht, dget_dset_self]
  · intro h
    rcases h with h | ⟨rv, hrv, ht⟩
    · subst h; rfl
    · subst hrv
      simp [CoordinateTransform.set_reference_point, ht]

/-- Claim C4: when the two calibration pixels coincide on an axis, the scale
for that axis silently falls back to `1` and `pixel_to_real` neither divides
by the zero denominator nor raises; stated for each axis (with the other
axis's reference value a scalar so its own branch is well defined). -/
theorem c4_degenerate_axis_scale_one
    (t : CoordinateTransform) (px py opx opy xpx xpy ypx ypy ox oy xv yv : ℚ)
    (hop : dget t.reference_points "origin" = some (opx, opy))
    (hxp : dget t.reference_points "x_ref" = some (xpx, xpy))
    (hyp : dget t.reference_points "y_ref" = some (ypx, ypy))
    (hov : dget t.reference_values "origin" = some (RVal.pair ox oy))
    (hxv : dget t.reference_values "x_ref" = some (RVal.scalar xv))
    (hyv : dget t.reference_values "y_ref" = some (RVal.scalar yv)) :
    (xpx = opx →
      t.pixel_to_real px py = Except.ok (some
        (ox + (px - opx) * 1,
         oy + (py - opy) * (if ypy ≠ opy then (yv - oy) / (ypy - opy) else 1)))) ∧
    (ypy = opy →
      t.pixel_to_real px py = Except.ok (some
        (ox + (px - opx) * (if xpx ≠ opx then (xv - ox) / (xpx - opx) else 1),
         oy + (py - opy) * 1))) := by
  have hmain := CoordinateTransform.pixel_to_real_eq t px py opx opy xpx xpy ypx ypy
    ox oy xv yv hop hxp hyp hov hxv hyv
  constructor
  · intro hx
    rw [hmain]
    simp [hx]
  · intro hy
    rw [hmain]
    simp [hy]

/-- Claim C4 witness: a concrete transform whose reference pixels coincide
with the origin pixel on both axes; both conclusions of the degenerate-axis
theorem evaluate with scale `1`. -/
theorem c4_degenerate_axis_scale_one_witness :
    (CoordinateTransform.mk
        [("origin", (5, 5)), ("x_ref", (5, 9)), ("y_ref", (3, 5))]
        [("origin", RVal.pair 1 2), ("x_ref", RVal.scalar 7),
         ("y_ref", RVal.scalar 8)]).pixel_to_real 6 7 =
      Except.ok (some (1 + (6 - 5) * 1, 2 + (7 - 5) * 1)) := by
  have h := c4_degenerate_axis_scale_one
    (CoordinateTransform.mk
      [("origin", (5, 5)), ("x_ref", (5, 9)), ("y_ref", (3, 5))]
      [("origin", RVal.pair 1 2), ("x_ref", RVal.scalar 7),
       ("y_ref", RVal.scalar 8)])
    6 7 5 5 5 9 3 5 1 2 7 8 (by rfl) (by rfl) (by rfl) (by rfl) (by rfl) (by rfl)
  rw [(h.1 rfl)]
  norm_num

/-- The transform reached by the call sequence of claim C5: pixel locations
for all three roles, then `set_reference_value` with a scalar for every role,
including the origin. -/
def scalarOriginCalib : CoordinateTransform :=
  CoordinateTransform.init.set_reference_point "origin" (0, 0) none
    |>.set_reference_point "x_ref" (10, 0) none
    |>.set_reference_point "y_ref" (0, 10) none
    |>.set_reference_value "origin" (RVal.scalar 3)
    |>.set_reference_value "x_ref" (RVal.scalar 1)
    |>.set_reference_value "y_ref" (RVal.scalar 2)

/-- Claim C5: `set_reference_value` validates nothing, so after setting the
three pixel locations and scalar values for all three roles (a scalar for
the origin), `is_calibrated()` is true yet `pixel_to_real` raises (modelled
`Except.error`, the failed tuple unpacking of the origin value) instead of
returning a coordinate pair or `None`. -/
theorem c5_scalar_origin_crashes :
    ∀ px py : ℚ,
      scalarOriginCalib.is_calibrated = true ∧
      scalarOriginCalib.pixel_to_real px py = Except.error () := by
  intro px py
  constructor
  · rfl
  · simp [scalarOriginCalib, CoordinateTransform.init,
      CoordinateTransform.set_reference_point, CoordinateTransform.set_reference_value,
      CoordinateTransform.pixel_to_real, CoordinateTransform.is_calibrated,
      dget, dset, dmem, RVal.truthy, RVal.unpackPair]

/-! ## The point registry (`PointMarkerManager`, src/map_tools.py)

A marker is a scene item with an identity: creating one (`QgsVertexMarker`)
attaches it to the canvas scene, `scene().removeItem` detaches exactly that
item, `setColor` restyles it in place.  We model the canvas scene as the list
of attached markers in attachment order and give each created marker a fresh
numeric identity drawn from a counter. -/

/-- RGB color. -/
abbrev Color := Nat × Nat × Nat

def black : Color := (0, 0, 0)
def gray : Color := (128, 128, 128)
def red : Color := (255, 0, 0)
def green : Color := (0, 255, 0)
def blue : Color := (0, 0, 255)
def orange : Color := (255, 165, 0)

/-- A vertex marker attached to the canvas: identity, position and style. -/
structure Marker where
  id : Nat
  center : ℚ × ℚ
  color : Color
  iconSize : Nat
  penWidth : Nat
deriving DecidableEq, Repr

/-- State of `PointMarkerManager` together with the canvas scene it draws on
(`nextId` is the supply of fresh marker identities). -/
structure PointMarkerManager where
  nextId : Nat
  scene : List Marker
  series_markers : Dict (List Nat)
  georef_markers : List Nat
  reference_markers : Dict Nat
deriving DecidableEq, Repr

namespace PointMarkerManager

/-- `__init__(canvas)`: all three collections start empty; the canvas (and
the identity supply) are whatever they already were. -/
def init (scene0 : List Marker) (nid : Nat) : PointMarkerManager :=
  ⟨nid, scene0, [], [], []⟩

/-- `add_data_point(series_name, point, is_active=True)`. -/
def add_data_point (mgr : PointMarkerManager) (series_name : String)
    (point : ℚ × ℚ) (is_active : Bool) : PointMarkerManager :=
  let sm := if dmem mgr.series_markers series_name then mgr.series_markers
            else dset mgr.series_markers series_name []
  let color := if is_active then black else gray
  let mk : Marker := ⟨mgr.nextId, point, color, 6, 2⟩
  { mgr with
    nextId := mgr.nextId + 1
    scene := mgr.scene ++ [mk]
    series_markers := dset sm series_name ((dget sm series_name).getD [] ++ [mgr.nextId]) }

/-- `add_georef_point(point, point_type)` (the type argument is unused). -/
def add_georef_point (mgr : PointMarkerManager) (point : ℚ × ℚ)
    (_point_type : String) : PointMarkerManager :=
  let mk : Marker := ⟨mgr.nextId, point, red, 8, 3⟩
  { mgr with
    nextId := mgr.nextId + 1
    scene := mgr.scene ++ [mk]
    georef_markers := mgr.georef_markers ++ [mgr.nextId] }

/-- `color_map.get(ref_type, green)` of `add_reference_point`. -/
def refColor (ref_type : String) : Color :=
  if ref_type = "origin" then green
  else if ref_type = "x_ref" then blue
  else if ref_type = "y_ref" then orange
  else green

/-- `add_reference_point(point, ref_type)`: when the role already has a
marker, that marker is removed from the scene first; the new marker is
attached and recorded as the role's single marker. -/
def add_reference_point (mgr : PointMarkerManager) (point : ℚ × ℚ)
    (ref_type : String) : PointMarkerManager :=
  let scene1 :=
    match dget mgr.reference_markers ref_type with
    | some oldId => mgr.scene.filter fun m => m.id != oldId
    | none => mgr.scene
  let mk : Marker := ⟨mgr.nextId, point, refColor ref_type, 10, 3⟩
  { mgr with
    nextId := mgr.nextId + 1
    scene := scene1 ++ [mk]
    reference_markers := dset mgr.reference_markers ref_type mgr.nextId }

/-- `marker.setColor(c)` applied to every marker of a series: restyle in
place, in the scene, every marker whose identity the series holds. -/
def setColorIn (scene : List Marker) (ids : List Nat) (c : Color) : List Marker :=
  scene.map fun m => if ids.contains m.id then { m with color := c } else m

/-- `update_series_colors(active_series)`: iterate the series dict in
insertion order; each series' markers are restyled black when the series is
the active one, gray otherwise. -/
def update_series_colors (mgr : PointMarkerManager) (active_series : String) :
    PointMarkerManager :=
  { mgr with
    scene := mgr.series_markers.foldl
      (fun sc p => setColorIn sc p.2 (if p.1 = active_series then black else gray))
      mgr.scene }

/-- `clear_series(series_name)`: remove the named series' markers from the
scene and delete the series; no-op when the series does not exist. -/
def clear_series (mgr : PointMarkerManager) (series_name : String) :
    PointMarkerManager :=
  match dget mgr.series_markers series_name with
  | none => mgr
  | some ids =>
      { mgr with
        scene := mgr.scene.filter fun m => !(ids.contains m.id)
        series_markers := ddel mgr.series_markers series_name }

/-- `clear_georef_points()`. -/
def clear_georef_points (mgr : PointMarkerManager) : PointMarkerManager :=
  { mgr with
    scene := mgr.scene.filter fun m => !(mgr.georef_markers.contains m.id)
    georef_markers := [] }

/-- `clear_reference_points()`. -/
def clear_reference_points (mgr : PointMarkerManager) : PointMarkerManager :=
  { mgr with
    scene := mgr.scene.filter fun m =>
      !((mgr.reference_markers.map Prod.snd).contains m.id)
    reference_markers := [] }

/-- All marker identities held by the series dict, in iteration order. -/
def seriesIds (mgr : PointMarkerManager) : List Nat :=
  mgr.series_markers.foldl (fun acc p => acc ++ p.2) []

/-- `clear_all()`: remove every series marker, then clear the georef
markers, then clear the reference markers. -/
def clear_all (mgr : PointMarkerManager) : PointMarkerManager :=
  let m1 : PointMarkerManager :=
    { mgr with
      scene := mgr.scene.filter fun m => !(seriesIds mgr).contains m.id
      series_markers := [] }
  m1.clear_georef_points.clear_reference_points

/-- The registry proper: the three categorized collections (the canvas and
the identity supply are the manager's environment, not registry state). -/
def registryState (mgr : PointMarkerManager) :
    Dict (List Nat) × List Nat × Dict Nat :=
  (mgr.series_markers, mgr.georef_markers, mgr.reference_markers)

end PointMarkerManager

theorem contains_iff {α : Type} [BEq α] [LawfulBEq α] {l : List α} {a : α} :
    l.contains a = true ↔ a ∈ l := List.elem_iff

namespace PointMarkerManager

theorem add_reference_point_refs (mgr : PointMarkerManager) (p : ℚ × ℚ)
    (role : String) :
    (mgr.add_reference_point p role).reference_markers =
      dset mgr.reference_markers role mgr.nextId := rfl

theorem add_reference_point_nextId (mgr : PointMarkerManager) (p : ℚ × ℚ)
    (role : String) :
    (mgr.add_reference_point p role).nextId = mgr.nextId + 1 := rfl

theorem add_reference_point_scene_none (mgr : PointMarkerManager) (p : ℚ × ℚ)
    (role : String) (hd : dget mgr.reference_markers role = none) :
    (mgr.add_reference_point p role).scene =
      mgr.scene ++ [⟨mgr.nextId, p, refColor role, 10, 3⟩] := by
  simp [add_reference_point, hd]

theorem add_reference_point_scene_some (mgr : PointMarkerManager) (p : ℚ × ℚ)
    (role : String) (oldId : Nat)
    (hd : dget mgr.reference_markers role = some oldId) :
    (mgr.add_reference_point p role).scene =
      (mgr.scene.filter fun m => m.id != oldId) ++
        [⟨mgr.nextId, p, refColor role, 10, 3⟩] := by
  simp [add_reference_point, hd]

theorem add_reference_point_scene_bound (mgr : PointMarkerManager) (p : ℚ × ℚ)
    (role : String) (hb : ∀ m ∈ mgr.scene, m.id < mgr.nextId) :
    ∀ m ∈ (mgr.add_reference_point p role).scene, m.id < mgr.nextId + 1 := by
  intro m hm
  cases hd : dget mgr.reference_markers role with
  | none =>
      rw [add_reference_point_scene_none mgr p role hd] at hm
      rcases List.mem_append.1 hm with h | h
      · exact Nat.lt_succ_of_lt (hb m h)
      · rw [List.mem_singleton.1 h]
        exact Nat.lt_succ_self _
  | some oldId =>
      rw [add_reference_point_scene_some mgr p role oldId hd] at hm
      rcases List.mem_append.1 hm with h | h
      · exact Nat.lt_succ_of_lt (hb m (List.mem_of_mem_filter h))
      · rw [List.mem_singleton.1 h]
        exact Nat.lt_succ_self _

end PointMarkerManager

/-- Claim C6: each reference role has at most one live marker.  Starting
from any manager whose scene markers all predate the identity counter,
setting the same role twice removes the first call's marker from the scene
(no marker with its identity survives), leaves exactly one live marker with
the second call's identity, and records only that marker for the role. -/
theorem c6_reference_role_one_live_marker
    (mgr : PointMarkerManager) (role : String) (p1 p2 : ℚ × ℚ)
    (hbound : mgr.scene.all (fun m => decide (m.id < mgr.nextId)) = true) :
    dget ((mgr.add_reference_point p1 role).add_reference_point p2
        role).reference_markers role = some (mgr.nextId + 1) ∧
    ((mgr.add_reference_point p1 role).add_reference_point p2 role).scene.all
        (fun m => m.id != mgr.nextId) = true ∧
    (((mgr.add_reference_point p1 role).add_reference_point p2 role).scene.filter
        (fun m => m.id == mgr.nextId + 1)).length = 1 := by
  have hb : ∀ m ∈ mgr.scene, m.id < mgr.nextId := by
    intro m hm
    simpa using List.all_eq_true.1 hbound m hm
  have hb1 := PointMarkerManager.add_reference_point_scene_bound mgr p1 role hb
  have hd2 : dget (mgr.add_reference_point p1 role).reference_markers role =
      some mgr.nextId := by
    rw [PointMarkerManager.add_reference_point_refs]
    exact dget_dset_self _ _ _
  have hscene2 := PointMarkerManager.add_reference_point_scene_some
    (mgr.add_reference_point p1 role) p2 role mgr.nextId hd2
  rw [PointMarkerManager.add_reference_point_nextId] at hscene2
  refine ⟨?_, ?_, ?_⟩
  · rw [PointMarkerManager.add_reference_point_refs,
      PointMarkerManager.add_reference_point_nextId]
    exact dget_dset_self _ _ _
  · rw [hscene2, List.all_append]
    have hleft : ((mgr.add_reference_point p1 role).scene.filter
        (fun m => m.id != mgr.nextId)).all (fun m => m.id != mgr.nextId) = true := by
      rw [List.all_eq_true]
      intro m hm
      exact (List.mem_filter.1 hm).2
    have hright : ([(⟨mgr.nextId + 1, p2, PointMarkerManager.refColor role, 10, 3⟩ :
        Marker)].all fun m => m.id != mgr.nextId) = true := by
      simp
    rw [hleft, hright]
    rfl
  · rw [hscene2, List.filter_append]
    have h1 : ((mgr.add_reference_point p1 role).scene.filter
        (fun m => m.id != mgr.nextId)).filter (fun m => m.id == mgr.nextId + 1) = [] := by
      rw [List.filter_eq_nil_iff]
      intro m hm
      have hmem : m ∈ (mgr.add_reference_point p1 role).scene :=
        List.mem_of_mem_filter hm
      have hlt := hb1 m hmem
      simp [Nat.ne_of_lt hlt]
    have h2 : ([(⟨mgr.nextId + 1, p2, PointMarkerManager.refColor role, 10, 3⟩ :
        Marker)].filter fun m => m.id == mgr.nextId + 1) =
        [⟨mgr.nextId + 1, p2, PointMarkerManager.refColor role, 10, 3⟩] := by
      simp
    rw [h1, h2]
    rfl

/-- Claim C6 witness: starting from a fresh manager, setting role `x_ref`
twice leaves the role mapped to the second marker's identity, no live marker
with the first identity, and exactly one live marker with the second. -/
theorem c6_reference_role_one_live_marker_witness :
    dget (((PointMarkerManager.init [] 0).add_reference_point (1, 2)
        "x_ref").add_reference_point (3, 4) "x_ref").reference_markers "x_ref" =
      some 1 ∧
    (((PointMarkerManager.init [] 0).add_reference_point (1, 2)
        "x_ref").add_reference_point (3, 4) "x_ref").scene.all
        (fun m => m.id != 0) = true ∧
    ((((PointMarkerManager.init [] 0).add_reference_point (1, 2)
        "x_ref").add_reference_point (3, 4) "x_ref").scene.filter
        (fun m => m.id == 1)).length = 1 :=
  c6_reference_role_one_live_marker (PointMarkerManager.init [] 0) "x_ref"
    (1, 2) (3, 4) (by rfl)

/-- Claim C7: `clear_all()` leaves the registry structurally equal to a
freshly constructed one — all three collections empty — and no marker of any
of the three categories stays live on the scene. -/
theorem c7_clear_all_resets :
    ∀ mgr : PointMarkerManager,
      PointMarkerManager.registryState mgr.clear_all =
        PointMarkerManager.registryState (PointMarkerManager.init [] 0) ∧
      mgr.clear_all.series_markers = [] ∧
      mgr.clear_all.georef_markers = [] ∧
      mgr.clear_all.reference_markers = [] ∧
      mgr.clear_all.scene.all (fun m =>
        !((PointMarkerManager.seriesIds mgr ++ mgr.georef_markers ++
            mgr.reference_markers.map Prod.snd).contains m.id)) = true := by
  intro mgr
  refine ⟨rfl, rfl, rfl, rfl, ?_⟩
  rw [List.all_eq_true]
  intro m hm
  have hm3 : m ∈ ((mgr.scene.filter fun x =>
      !((PointMarkerManager.seriesIds mgr).contains x.id)).filter fun x =>
        !(mgr.georef_markers.contains x.id)).filter (fun x =>
          !((mgr.reference_markers.map Prod.snd).contains x.id)) := hm
  have h3 := (List.mem_filter.1 hm3).2
  have hm2 := List.mem_of_mem_filter hm3
  have h2 := (List.mem_filter.1 hm2).2
  have hm1 := List.mem_of_mem_filter hm2
  have h1 := (List.mem_filter.1 hm1).2
  simp only [Bool.not_eq_true', ← Bool.not_eq_true] at h1 h2 h3 ⊢
  intro hc
  rcases List.mem_append.1 (contains_iff.1 hc) with hc2 | hc2
  · rcases List.mem_append.1 hc2 with hc3 | hc3
    · exact h1 (contains_iff.2 hc3)
    · exact h2 (contains_iff.2 hc3)
  · exact h3 (contains_iff.2 hc2)

/-- Claim C9: `clear_series(n)` removes exactly the series `n`: afterwards
`n` is absent, every other series is unchanged, the georef and reference
collections are untouched, markers outside `n`'s identities stay on the
scene, and the call is a no-op when `n` does not exist. -/
theorem c9_clear_series_isolated :
    ∀ (mgr : PointMarkerManager) (n : String),
      dget (mgr.clear_series n).series_markers n = none ∧
      (∀ s : String, s ≠ n →
        dget (mgr.clear_series n).series_markers s = dget mgr.series_markers s) ∧
      (mgr.clear_series n).georef_markers = mgr.georef_markers ∧
      (mgr.clear_series n).reference_markers = mgr.reference_markers ∧
      (dget mgr.series_markers n = none → mgr.clear_series n = mgr) ∧
      (∀ ids, dget mgr.series_markers n = some ids →
        ∀ m ∈ mgr.scene, ids.contains m.id = false →
          m ∈ (mgr.clear_series n).scene) := by
  intro mgr n
  cases hd : dget mgr.series_markers n with
  | none =>
      have hid : mgr.clear_series n = mgr := by
        simp [PointMarkerManager.clear_series, hd]
      rw [hid]
      refine ⟨hd, fun s _ => rfl, rfl, rfl, fun _ => rfl, ?_⟩
      intro ids hids
      simp at hids
  | some ids =>
      have hcs : mgr.clear_series n =
          { mgr with
            scene := mgr.scene.filter fun m => !(ids.contains m.id)
            series_markers := ddel mgr.series_markers n } := by
        simp [PointMarkerManager.clear_series, hd]
      rw [hcs]
      refine ⟨dget_ddel_self _ _, ?_, rfl, rfl, ?_, ?_⟩
      · intro s hs
        exact dget_ddel_ne mgr.series_markers (Ne.symm hs)
      · intro hnone
        simp at hnone
      · intro ids2 hids2 m hmem hcont
        injection hids2 with h
        subst h
        exact List.mem_filter.2 ⟨hmem, by simp only [hcont]; rfl⟩

namespace PointMarkerManager

/-- The style `update_series_colors` gives a series: black when active,
gray otherwise. -/
def seriesStyle (series_name active : String) : Color :=
  if series_name = active then black else gray

/-- The color one marker identity carries after a full recoloring pass over
the series list, starting from color `c0`. -/
def colorFold (l : Dict (List Nat)) (active : String) (i : Nat) (c0 : Color) :
    Color :=
  l.foldl (fun c p => if p.2.contains i then seriesStyle p.1 active else c) c0

/-- A full recoloring pass as a function on one marker. -/
def recolorOne (l : Dict (List Nat)) (active : String) (m : Marker) : Marker :=
  l.foldl (fun mm p =>
    if p.2.contains mm.id then { mm with color := seriesStyle p.1 active }
    else mm) m

/-- Whether any series in the list holds the identity `i`. -/
def touched (l : Dict (List Nat)) (i : Nat) : Bool :=
  l.any fun p => p.2.contains i

/-- The two identity lists share no identity. -/
def disjointB (xs ys : List Nat) : Bool :=
  xs.all fun i => !(ys.contains i)

/-- Sanity of the series dict: distinct entries hold disjoint identity
lists (true of every reachable manager: identities are fresh). -/
def wfB : Dict (List Nat) → Bool
  | [] => true
  | p :: rest => (rest.all fun q => disjointB p.2 q.2) && wfB rest

theorem update_scene_eq_map (l : Dict (List Nat)) (a : String)
    (sc : List Marker) :
    l.foldl (fun sc2 p => setColorIn sc2 p.2 (if p.1 = a then black else gray))
        sc = sc.map (recolorOne l a) := by
  induction l generalizing sc with
  | nil =>
      simp only [List.foldl_nil]
      have : recolorOne [] a = fun m => m := rfl
      rw [this, List.map_id']
  | cons p rest ih =>
      rw [List.foldl_cons, ih, setColorIn, List.map_map]
      rfl

theorem recolorOne_eq (l : Dict (List Nat)) (a : String) (m : Marker) :
    recolorOne l a m = { m with color := colorFold l a m.id m.color } := by
  induction l generalizing m with
  | nil => rfl
  | cons p rest ih =>
      have hstep : recolorOne (p :: rest) a m =
          recolorOne rest a
            (if p.2.contains m.id then { m with color := seriesStyle p.1 a }
             else m) := rfl
      rw [hstep]
      by_cases hc : p.2.contains m.id
      · rw [if_pos hc, ih]
        congr 1
        simp only [colorFold, List.foldl_cons]
        rw [if_pos hc]
      · rw [if_neg hc, ih]
        congr 1
        simp only [colorFold, List.foldl_cons]
        rw [if_neg hc]

theorem colorFold_of_untouched (l : Dict (List Nat)) (a : String) (i : Nat)
    (c : Color) (h : touched l i = false) : colorFold l a i c = c := by
  induction l generalizing c with
  | nil => rfl
  | cons p rest ih =>
      rw [touched, List.any_cons, Bool.or_eq_false_iff] at h
      rw [colorFold, List.foldl_cons,
        if_neg (by rw [h.1]; exact Bool.false_ne_true)]
      exact ih c (by rw [touched]; exact h.2)

theorem colorFold_of_touched (l : Dict (List Nat)) (b : String) (i : Nat)
    (c c' : Color) (h : touched l i = true) :
    colorFold l b i c = colorFold l b i c' := by
  induction l generalizing c c' with
  | nil => cases h
  | cons p rest ih =>
      by_cases hc : p.2.contains i
      · rw [colorFold, List.foldl_cons, if_pos hc,
          colorFold, List.foldl_cons, if_pos hc]
      · have hr : touched rest i = true := by
          have hcf : p.2.contains i = false := by
            cases hx : p.2.contains i with
            | false => rfl
            | true => exact absurd hx hc
          rw [touched, List.any_cons, hcf, Bool.false_or] at h
          exact h
        rw [colorFold, List.foldl_cons, if_neg hc,
          colorFold, List.foldl_cons, if_neg hc]
        exact ih c c' hr

theorem colorFold_colorFold (l : Dict (List Nat)) (a b : String) (i : Nat)
    (c : Color) :
    colorFold l b i (colorFold l a i c) = colorFold l b i c := by
  cases ht : touched l i with
  | false => rw [colorFold_of_untouched l a i c ht]
  | true => exact colorFold_of_touched l b i _ c ht

theorem recolorOne_recolorOne (l : Dict (List Nat)) (a b : String)
    (m : Marker) : recolorOne l b (recolorOne l a m) = recolorOne l b m := by
  rw [recolorOne_eq l a m, recolorOne_eq, recolorOne_eq]
  simp [colorFold_colorFold]

theorem update_series_colors_scene (mgr : PointMarkerManager) (a : String) :
    (mgr.update_series_colors a).scene =
      mgr.scene.map (recolorOne mgr.series_markers a) :=
  update_scene_eq_map mgr.series_markers a mgr.scene

theorem update_series_colors_twice (mgr : PointMarkerManager) (a b : String) :
    (mgr.update_series_colors a).update_series_colors b =
      mgr.update_series_colors b := by
  obtain ⟨nid, sc, sm, gm, rm⟩ := mgr
  simp only [update_series_colors]
  congr 1
  rw [update_scene_eq_map, update_scene_eq_map, update_scene_eq_map,
    List.map_map]
  congr 1
  funext m
  exact recolorOne_recolorOne sm a b m

theorem dget_mem {α : Type} {l : Dict α} {s : String} {v : α}
    (h : dget l s = some v) : (s, v) ∈ l := by
  induction l with
  | nil => cases h
  | cons p rest ih =>
      by_cases hp : p.1 = s
      · rw [dget, if_pos hp] at h
        injection h with h2
        have hpv : p = (s, v) := by
          obtain ⟨pk, pv⟩ := p
          simp only [Prod.mk.injEq]
          exact ⟨hp, h2⟩
        rw [hpv]
        exact List.mem_cons_self _ _
      · rw [dget, if_neg hp] at h
        exact List.mem_cons_of_mem _ (ih h)

theorem disjointB_right {xs ys : List Nat} {i : Nat}
    (hd : disjointB xs ys = true) (hy : ys.contains i = true) :
    xs.contains i = false := by
  cases hx : xs.contains i with
  | false => rfl
  | true =>
      have := List.all_eq_true.1 hd i (contains_iff.1 hx)
      rw [hy] at this
      cases this

theorem colorFold_unique (l : Dict (List Nat)) (a s : String) (ids : List Nat)
    (i : Nat) (c : Color) (hwf : wfB l = true) (hs : dget l s = some ids)
    (hi : ids.contains i = true) : colorFold l a i c = seriesStyle s a := by
  induction l generalizing c with
  | nil => cases hs
  | cons p rest ih =>
      rw [wfB, Bool.and_eq_true] at hwf
      by_cases hp : p.1 = s
      · rw [dget, if_pos hp] at hs
        injection hs with hids
        subst hids
        rw [colorFold, List.foldl_cons, if_pos hi]
        have htr : touched rest i = false := by
          cases htr2 : touched rest i with
          | false => rfl
          | true =>
              obtain ⟨q, hq, hqc⟩ := List.any_eq_true.1 htr2
              have hdq := List.all_eq_true.1 hwf.1 q hq
              have := disjointB_right hdq hqc
              rw [this] at hi
              cases hi
        rw [show List.foldl
            (fun c p => if p.2.contains i then seriesStyle p.1 a else c)
            (seriesStyle p.1 a) rest =
            colorFold rest a i (seriesStyle p.1 a) from rfl]
        rw [colorFold_of_untouched rest a i _ htr, hp]
      · rw [dget, if_neg hp] at hs
        have hpc : p.2.contains i = false := by
          have hmem := dget_mem hs
          have hdq := List.all_eq_true.1 hwf.1 (s, ids) hmem
          exact disjointB_right hdq hi
        rw [colorFold, List.foldl_cons,
          if_neg (by rw [hpc]; exact Bool.false_ne_true)]
        exact ih c hwf.2 hs

end PointMarkerManager

/-- Claim C8: for a manager whose series hold disjoint marker identities,
`update_series_colors(a)` styles every marker of series `a` black and every
marker of any other series gray; a second pass with the same name changes
nothing, and a later pass with another name `b` restyles the previously
active series inactive and `b`'s markers active (one pass with `b` alone
gives the same state). -/
theorem c8_update_series_colors_total
    (mgr : PointMarkerManager) (a b : String)
    (hwf : PointMarkerManager.wfB mgr.series_markers = true) :
    (∀ s ids, dget mgr.series_markers s = some ids →
      ∀ i, ids.contains i = true →
        ∀ m ∈ (mgr.update_series_colors a).scene, m.id = i →
          m.color = (if s = a then black else gray)) ∧
    (mgr.update_series_colors a).update_series_colors a =
      mgr.update_series_colors a ∧
    (mgr.update_series_colors a).update_series_colors b =
      mgr.update_series_colors b := by
  refine ⟨?_, PointMarkerManager.update_series_colors_twice mgr a a,
    PointMarkerManager.update_series_colors_twice mgr a b⟩
  intro s ids hs i hi m hm hid
  rw [PointMarkerManager.update_series_colors_scene] at hm
  obtain ⟨m0, hm0, rfl⟩ := List.mem_map.1 hm
  rw [PointMarkerManager.recolorOne_eq] at hid ⊢
  have hid0 : m0.id = i := hid
  subst hid0
  have := PointMarkerManager.colorFold_unique mgr.series_markers a s ids m0.id
    m0.color hwf hs hi
  rw [show ({ m0 with
      color := PointMarkerManager.colorFold mgr.series_markers a m0.id
        m0.color } : Marker).color =
    PointMarkerManager.colorFold mgr.series_markers a m0.id m0.color from rfl]
  rw [this]
  rfl

/-- The manager of claim C8's witness: two series `A` and `B`, one marker
each, built from a fresh manager. -/
def mgrTwoSeries : PointMarkerManager :=
  ((PointMarkerManager.init [] 0).add_data_point "A" (1, 1) true).add_data_point
    "B" (2, 2) true

/-- Claim C8 witness: on the two-series manager, activating `B` styles
`A`'s marker gray and `B`'s black; repeating `B` is the identity, and a
later pass activating `A` equals a single pass activating `A`. -/
theorem c8_update_series_colors_total_witness :
    (∀ s ids, dget mgrTwoSeries.series_markers s = some ids →
      ∀ i, ids.contains i = true →
        ∀ m ∈ (mgrTwoSeries.update_series_colors "B").scene, m.id = i →
          m.color = (if s = "B" then black else gray)) ∧
    (mgrTwoSeries.update_series_colors "B").update_series_colors "B" =
      mgrTwoSeries.update_series_colors "B" ∧
    (mgrTwoSeries.update_series_colors "B").update_series_colors "A" =
      mgrTwoSeries.update_series_colors "A" :=
  c8_update_series_colors_total mgrTwoSeries "B" "A" (by rfl)

/-! ## The interaction modes (`ImageGraphicsView`, src/image_viewer_widget.py)

Only the state the mode toggles read and write is modelled: the two mode
flags, whether the crosshair lines exist, and whether they are shown.
Cursor shapes and drag modes belong to the GUI toolkit. -/

/-- Mode-relevant state of `ImageGraphicsView`. -/
structure ImageGraphicsView where
  pan_mode : Bool
  digitize_mode : Bool
  has_crosshair_lines : Bool
  crosshair_visible : Bool
deriving DecidableEq, Repr

namespace ImageGraphicsView

/-- `__init__`: both modes off, no crosshair lines. -/
def init : ImageGraphicsView := ⟨false, false, false, false⟩

/-- `create_crosshair_lines()`: create (hidden) lines if absent. -/
def create_crosshair_lines (v : ImageGraphicsView) : ImageGraphicsView :=
  if v.has_crosshair_lines then v else { v with has_crosshair_lines := true }

/-- `set_pan_mode(enabled)`: sets the flag; enabling forces digitize off. -/
def set_pan_mode (v : ImageGraphicsView) (enabled : Bool) : ImageGraphicsView :=
  let v1 : ImageGraphicsView := { v with pan_mode := enabled }
  if enabled then { v1 with digitize_mode := false } else v1

/-- `set_digitize_mode(enabled)`: sets the flag; enabling forces pan off and
creates the crosshair lines, disabling hides the crosshair (when the lines
exist). -/
def set_digitize_mode (v : ImageGraphicsView) (enabled : Bool) :
    ImageGraphicsView :=
  let v1 : ImageGraphicsView := { v with digitize_mode := enabled }
  if enabled then ({ v1 with pan_mode := false }).create_crosshair_lines
  else if v1.has_crosshair_lines then { v1 with crosshair_visible := false }
  else v1

end ImageGraphicsView

/-- A mode-toggle request, as issued by the toolbar actions. -/
inductive ModeEvent where
  | pan (enabled : Bool)
  | digitize (enabled : Bool)
deriving DecidableEq, Repr

/-- Apply one toggle. -/
def applyEvent (v : ImageGraphicsView) : ModeEvent → ImageGraphicsView
  | ModeEvent.pan b => v.set_pan_mode b
  | ModeEvent.digitize b => v.set_digitize_mode b

/-- Run a sequence of toggles from a starting state. -/
def runEvents (v : ImageGraphicsView) (evs : List ModeEvent) :
    ImageGraphicsView :=
  evs.foldl applyEvent v

theorem applyEvent_exclusive (v : ImageGraphicsView) (e : ModeEvent) :
    ¬((applyEvent v e).pan_mode = true ∧ (applyEvent v e).digitize_mode = true) := by
  cases e with
  | pan b =>
      cases b <;>
        simp [applyEvent, ImageGraphicsView.set_pan_mode]
  | digitize b =>
      cases b <;>
        simp [applyEvent, ImageGraphicsView.set_digitize_mode,
          ImageGraphicsView.create_crosshair_lines] <;>
        split <;> simp

theorem runEvents_exclusive (evs : List ModeEvent) (v : ImageGraphicsView)
    (hv : ¬(v.pan_mode = true ∧ v.digitize_mode = true)) :
    ¬((runEvents v evs).pan_mode = true ∧
      (runEvents v evs).digitize_mode = true) := by
  induction evs generalizing v with
  | nil => exact hv
  | cons e rest ih =>
      exact ih (applyEvent v e) (applyEvent_exclusive v e)

/-- Claim C10: pan and digitize are mutually exclusive.  From the initial
state, no sequence of `set_pan_mode` / `set_digitize_mode` calls makes both
flags true; enabling pan forces digitize off, enabling digitize forces pan
off, and disabling the active mode returns to the neutral state (both flags
false). -/
theorem c10_modes_mutually_exclusive :
    (∀ evs : List ModeEvent,
      ¬((runEvents ImageGraphicsView.init evs).pan_mode = true ∧
        (runEvents ImageGraphicsView.init evs).digitize_mode = true)) ∧
    (∀ v : ImageGraphicsView,
      (v.set_pan_mode true).pan_mode = true ∧
      (v.set_pan_mode true).digitize_mode = false) ∧
    (∀ v : ImageGraphicsView,
      (v.set_digitize_mode true).digitize_mode = true ∧
      (v.set_digitize_mode true).pan_mode = false) ∧
    (∀ v : ImageGraphicsView, v.digitize_mode = false →
      (v.set_pan_mode false).pan_mode = false ∧
      (v.set_pan_mode false).digitize_mode = false) ∧
    (∀ v : ImageGraphicsView, v.pan_mode = false →
      (v.set_digitize_mode false).digitize_mode = false ∧
      (v.set_digitize_mode false).pan_mode = false) := by
  refine ⟨?_, ?_, ?_, ?_, ?_⟩
  · intro evs
    exact runEvents_exclusive evs ImageGraphicsView.init (by simp [ImageGraphicsView.init])
  · intro v
    simp [ImageGraphicsView.set_pan_mode]
  · intro v
    constructor <;>
      · simp [ImageGraphicsView.set_digitize_mode,
          ImageGraphicsView.create_crosshair_lines]
        split <;> simp
  · intro v hd
    simp [ImageGraphicsView.set_pan_mode, hd]
  · intro v hp
    constructor <;>
      · simp [ImageGraphicsView.set_digitize_mode,
          ImageGraphicsView.create_crosshair_lines, hp]
        split <;> simp [hp]

end CSD
